import Mathlib

/-!
Verification of the animation and connector logic of the Helio workstation
sequencer layer (SequencerLayout.cpp and MergingEventsConnector.cpp).

Modelling conventions:
- C++ `float` values are embedded as exact rationals (ℚ); the source code
  performs plain arithmetic on them and the properties of interest are about
  that arithmetic, not about IEEE rounding.
- C++ `int(...)` casts of floats truncate toward zero; this is `cppTruncInt`.
- Stateful classes become Lean structures with explicit state passing.
- JUCE framework helpers used by the source (jlimit, jmin, Rectangle built
  from two corner points, Rectangle.expanded, Rectangle.getRelativePoint,
  Component visibility and enablement flags, MultiTimer start/stop) are
  embedded with their documented JUCE semantics.
-/

namespace Helio

/-- State of `RollsSwitchingProxy::ToggleAnimation` (SequencerLayout.cpp,
lines 383-439): a single-axis decelerating toggle animation.
Field defaults are the C++ in-class initializers. -/
structure ToggleAnimation where
  position : ℚ := 0
  direction : ℚ := -1
  speed : ℚ := 0
  deceleration : ℚ := 1
  deriving DecidableEq, Repr

/-- JUCE jlimit: clamp valueToConstrain into [lowerLimit, upperLimit]. -/
def jlimit (lowerLimit upperLimit valueToConstrain : ℚ) : ℚ :=
  if valueToConstrain < lowerLimit then lowerLimit
  else if upperLimit < valueToConstrain then upperLimit
  else valueToConstrain

/-- ToggleAnimation::start: reverses direction, resets speed and
deceleration (deceleration = 1 - startSpeed). -/
def ToggleAnimation.start (a : ToggleAnimation) (startSpeed : ℚ) : ToggleAnimation :=
  { a with
    direction := a.direction * (-1)
    speed := startSpeed
    deceleration := 1 - startSpeed }

/-- ToggleAnimation::tickAndCheckIfDone: advances position by
direction * speed, decays speed by the deceleration factor, and returns
the settled signal: position < 0.001, or position > 0.999, or
speed < 0.001. Returns the updated state together with the signal. -/
def ToggleAnimation.tickAndCheckIfDone (a : ToggleAnimation) : ToggleAnimation × Bool :=
  let newPosition := a.position + a.direction * a.speed
  let newSpeed := a.speed * a.deceleration
  ({ a with position := newPosition, speed := newSpeed },
    decide (newPosition < 0.001) || decide (newPosition > 0.999) ||
      decide (newSpeed < 0.001))

/-- ToggleAnimation::finish: pushes position to either 0 or 1 by adding
the direction and clamping with jlimit(0, 1, _). -/
def ToggleAnimation.finish (a : ToggleAnimation) : ToggleAnimation :=
  { a with position := jlimit 0 1 (a.position + a.direction) }

/-- ToggleAnimation::canRestart: true only when the animation is close to
done: direction forward and position > 0.85, or direction backward and
position < 0.15. -/
def ToggleAnimation.canRestart (a : ToggleAnimation) : Bool :=
  (decide (a.direction > 0) && decide (a.position > 0.85)) ||
    (decide (a.direction < 0) && decide (a.position < 0.15))

/-- ToggleAnimation::isInDefaultState: direction < 0. -/
def ToggleAnimation.isInDefaultState (a : ToggleAnimation) : Bool :=
  decide (a.direction < 0)

/-- ToggleAnimation::getPosition. -/
def ToggleAnimation.getPosition (a : ToggleAnimation) : ℚ := a.position

/-- ToggleAnimation::resetToStart: position 0, direction -1
(speed and deceleration are left untouched by the source). -/
def ToggleAnimation.resetToStart (a : ToggleAnimation) : ToggleAnimation :=
  { a with position := 0, direction := -1 }

/-- ToggleAnimation::resetToEnd: position 1, direction 1. -/
def ToggleAnimation.resetToEnd (a : ToggleAnimation) : ToggleAnimation :=
  { a with position := 1, direction := 1 }

/-- The state after one tick, discarding the settled signal. -/
def ToggleAnimation.tick (a : ToggleAnimation) : ToggleAnimation :=
  a.tickAndCheckIfDone.1

/-- The settled signal of the next tick from a given state. -/
def ToggleAnimation.tickSignal (a : ToggleAnimation) : Bool :=
  a.tickAndCheckIfDone.2

/-- The state after n ticks. -/
def ToggleAnimation.ticks (a : ToggleAnimation) : ℕ → ToggleAnimation
  | 0 => a
  | n + 1 => (a.ticks n).tick

theorem tick_position (a : ToggleAnimation) :
    a.tick.position = a.position + a.direction * a.speed := rfl

theorem tick_speed (a : ToggleAnimation) :
    a.tick.speed = a.speed * a.deceleration := rfl

theorem tick_direction (a : ToggleAnimation) :
    a.tick.direction = a.direction := rfl

theorem tick_deceleration (a : ToggleAnimation) :
    a.tick.deceleration = a.deceleration := rfl

theorem ticks_succ (a : ToggleAnimation) (n : ℕ) :
    a.ticks (n + 1) = (a.ticks n).tick := rfl

theorem ticks_direction (a : ToggleAnimation) (n : ℕ) :
    (a.ticks n).direction = a.direction := by
  induction n with
  | zero => rfl
  | succ n ih => rw [ticks_succ, tick_direction, ih]

theorem ticks_deceleration (a : ToggleAnimation) (n : ℕ) :
    (a.ticks n).deceleration = a.deceleration := by
  induction n with
  | zero => rfl
  | succ n ih => rw [ticks_succ, tick_deceleration, ih]

theorem ticks_speed (a : ToggleAnimation) (n : ℕ) :
    (a.ticks n).speed = a.speed * a.deceleration ^ n := by
  induction n with
  | zero => simp [ToggleAnimation.ticks]
  | succ n ih =>
    rw [ticks_succ, tick_speed, ih, ticks_deceleration, pow_succ, mul_assoc]

theorem ticks_position_succ (a : ToggleAnimation) (n : ℕ) :
    (a.ticks (n + 1)).position =
      (a.ticks n).position + a.direction * (a.speed * a.deceleration ^ n) := by
  rw [ticks_succ, tick_position, ticks_direction, ticks_speed]

theorem ticks_position_le_forward (a : ToggleAnimation) (hd : a.direction = 1)
    (hs : 0 ≤ a.speed) (hdec : 0 ≤ a.deceleration) (n : ℕ) :
    a.position ≤ (a.ticks n).position := by
  induction n with
  | zero => exact le_refl _
  | succ n ih =>
    rw [ticks_position_succ, hd]
    have : 0 ≤ a.speed * a.deceleration ^ n :=
      mul_nonneg hs (pow_nonneg hdec n)
    linarith

theorem ticks_position_ge_backward (a : ToggleAnimation) (hd : a.direction = -1)
    (hs : 0 ≤ a.speed) (hdec : 0 ≤ a.deceleration) (n : ℕ) :
    (a.ticks n).position ≤ a.position := by
  induction n with
  | zero => exact le_refl _
  | succ n ih =>
    rw [ticks_position_succ, hd]
    have : 0 ≤ a.speed * a.deceleration ^ n :=
      mul_nonneg hs (pow_nonneg hdec n)
    linarith

theorem jlimit_eq_one (v : ℚ) (h : 1 ≤ v) : jlimit 0 1 v = 1 := by
  unfold jlimit
  rcases lt_or_le 1 v with h1 | h1
  · rw [if_neg (by linarith), if_pos h1]
  · rw [if_neg (by linarith), if_neg (not_lt.mpr h1)]
    linarith

theorem jlimit_eq_zero (v : ℚ) (h : v ≤ 0) : jlimit 0 1 v = 0 := by
  unfold jlimit
  rcases lt_or_le v 0 with h1 | h1
  · rw [if_pos h1]
  · rw [if_neg (not_lt.mpr h1), if_neg (by linarith)]
    linarith

theorem finish_position (a : ToggleAnimation) :
    a.finish.position = jlimit 0 1 (a.position + a.direction) := rfl

theorem tickSignal_false_bounds (a : ToggleAnimation) (h : a.tickSignal = false) :
    0.001 ≤ a.tick.position ∧ a.tick.position ≤ 0.999 := by
  simp only [ToggleAnimation.tickSignal, ToggleAnimation.tickAndCheckIfDone,
    Bool.or_eq_false_iff, decide_eq_false_iff_not, not_lt, gt_iff_lt] at h
  exact ⟨h.1.1, h.1.2⟩

theorem tickSignal_of_speed_lt (a : ToggleAnimation)
    (h : a.speed * a.deceleration < 0.001) : a.tickSignal = true := by
  simp only [ToggleAnimation.tickSignal, ToggleAnimation.tickAndCheckIfDone,
    Bool.or_eq_true, decide_eq_true_eq]
  exact Or.inr h

theorem tickSignal_of_position_out (a : ToggleAnimation)
    (h : a.tick.position < 0.001 ∨ a.tick.position > 0.999) :
    a.tickSignal = true := by
  simp only [ToggleAnimation.tickSignal, ToggleAnimation.tickAndCheckIfDone,
    Bool.or_eq_true, decide_eq_true_eq]
  rcases h with h | h
  · exact Or.inl (Or.inl h)
  · exact Or.inl (Or.inr h)

/-- C1: for every initialSpeed in (0,1), after start(initialSpeed) from a
state with position in [0,1] and a legal direction, some tick reports the
settled signal, and finish() after any number of ticks leaves the position
exactly at 0 or exactly at 1. -/
theorem start_ticks_settle_and_finish_exact (a : ToggleAnimation) (s : ℚ)
    (h0 : 0 < s) (h1 : s < 1) (hp0 : 0 ≤ a.position) (hp1 : a.position ≤ 1)
    (hd : a.direction = 1 ∨ a.direction = -1) :
    (∃ n : ℕ, ((a.start s).ticks n).tickSignal = true) ∧
    (∀ n : ℕ, (((a.start s).ticks n).finish).position = 0 ∨
      (((a.start s).ticks n).finish).position = 1) := by
  have hbs : (a.start s).speed = s := rfl
  have hbdec : (a.start s).deceleration = 1 - s := rfl
  have hbp : (a.start s).position = a.position := rfl
  have hbd : (a.start s).direction = a.direction * (-1) := rfl
  constructor
  · obtain ⟨n, hn⟩ :=
      exists_pow_lt_of_lt_one (x := (0.001 : ℚ)) (y := 1 - s) (by norm_num) (by linarith)
    refine ⟨n, tickSignal_of_speed_lt _ ?_⟩
    rw [ticks_speed, ticks_deceleration, hbs, hbdec]
    have hpow : (0 : ℚ) ≤ (1 - s) ^ n := pow_nonneg (by linarith) n
    nlinarith [mul_nonneg hpow (show (0 : ℚ) ≤ 1 - s + s ^ 2 by nlinarith)]
  · intro n
    have hdir := ticks_direction (a.start s) n
    rw [hbd] at hdir
    rcases hd with hda | hda
    · left
      have hmono : ((a.start s).ticks n).position ≤ (a.start s).position :=
        ticks_position_ge_backward _ (by rw [hbd, hda]; norm_num)
          (by rw [hbs]; linarith) (by rw [hbdec]; linarith) n
      rw [finish_position, hdir, hda]
      apply jlimit_eq_zero
      rw [hbp] at hmono
      norm_num
      linarith
    · right
      have hmono : (a.start s).position ≤ ((a.start s).ticks n).position :=
        ticks_position_le_forward _ (by rw [hbd, hda]; norm_num)
          (by rw [hbs]; linarith) (by rw [hbdec]; linarith) n
      rw [finish_position, hdir, hda]
      apply jlimit_eq_one
      rw [hbp] at hmono
      norm_num
      linarith

/-- Witness for C1 with initialSpeed 1/2 from the default state. -/
theorem start_ticks_settle_and_finish_exact_witness :
    (∃ n : ℕ, ((ToggleAnimation.start ⟨0, -1, 0, 1⟩ (1/2)).ticks n).tickSignal = true) ∧
    (∀ n : ℕ, (((ToggleAnimation.start ⟨0, -1, 0, 1⟩ (1/2)).ticks n).finish).position = 0 ∨
      (((ToggleAnimation.start ⟨0, -1, 0, 1⟩ (1/2)).ticks n).finish).position = 1) :=
  start_ticks_settle_and_finish_exact ⟨0, -1, 0, 1⟩ (1/2)
    (by norm_num) (by norm_num) (by norm_num) (by norm_num) (Or.inr rfl)

/-- C7: ticking never clamps: for a run started by start(initialSpeed) with
initialSpeed in (0,1) from a position in [0,1], every position produced by
tickAndCheckIfDone up to and including the first settled tick stays within
[-initialSpeed, 1 + initialSpeed], and any tick whose new position falls
below 0.001 or above 0.999 reports the settled signal at that very tick. -/
theorem ticking_overshoot_bounded (a : ToggleAnimation) (s : ℚ)
    (h0 : 0 < s) (h1 : s < 1) (hp0 : 0 ≤ a.position) (hp1 : a.position ≤ 1)
    (hd : a.direction = 1 ∨ a.direction = -1) :
    (∀ n : ℕ, (∀ m : ℕ, m < n → ((a.start s).ticks m).tickSignal = false) →
      -s ≤ ((a.start s).ticks (n + 1)).position ∧
        ((a.start s).ticks (n + 1)).position ≤ 1 + s) ∧
    (∀ n : ℕ, (((a.start s).ticks (n + 1)).position < 0.001 ∨
        ((a.start s).ticks (n + 1)).position > 0.999) →
      ((a.start s).ticks n).tickSignal = true) := by
  have hbs : (a.start s).speed = s := rfl
  have hbdec : (a.start s).deceleration = 1 - s := rfl
  have hbp : (a.start s).position = a.position := rfl
  have hbd : (a.start s).direction = a.direction * (-1) := rfl
  constructor
  · intro n hall
    have hposn : 0 ≤ ((a.start s).ticks n).position ∧
        ((a.start s).ticks n).position ≤ 1 := by
      cases n with
      | zero => exact ⟨hp0, hp1⟩
      | succ k =>
        have hk := tickSignal_false_bounds _ (hall k (Nat.lt_succ_self k))
        rw [← ticks_succ] at hk
        norm_num at hk
        constructor <;> linarith [hk.1, hk.2]
    have hstep := ticks_position_succ (a.start s) n
    have hsp0 : 0 ≤ (a.start s).speed * (a.start s).deceleration ^ n := by
      rw [hbs, hbdec]
      exact mul_nonneg (by linarith) (pow_nonneg (by linarith) n)
    have hsps : (a.start s).speed * (a.start s).deceleration ^ n ≤ s := by
      rw [hbs, hbdec]
      calc s * (1 - s) ^ n ≤ s * 1 :=
            mul_le_mul_of_nonneg_left (pow_le_one₀ (by linarith) (by linarith)) (by linarith)
        _ = s := mul_one s
    rcases hd with hda | hda <;> rw [hstep, hbd, hda] <;> constructor <;>
      · norm_num
        linarith [hposn.1, hposn.2]
  · intro n hout
    rw [ticks_succ] at hout
    exact tickSignal_of_position_out _ hout

/-- Witness for C7 with initialSpeed 1/2 from the default state. -/
theorem ticking_overshoot_bounded_witness :
    (∀ n : ℕ, (∀ m : ℕ, m < n →
        ((ToggleAnimation.start ⟨0, -1, 0, 1⟩ (1/2)).ticks m).tickSignal = false) →
      -(1/2 : ℚ) ≤ ((ToggleAnimation.start ⟨0, -1, 0, 1⟩ (1/2)).ticks (n + 1)).position ∧
        ((ToggleAnimation.start ⟨0, -1, 0, 1⟩ (1/2)).ticks (n + 1)).position ≤ 1 + (1/2 : ℚ)) ∧
    (∀ n : ℕ, (((ToggleAnimation.start ⟨0, -1, 0, 1⟩ (1/2)).ticks (n + 1)).position < 0.001 ∨
        ((ToggleAnimation.start ⟨0, -1, 0, 1⟩ (1/2)).ticks (n + 1)).position > 0.999) →
      ((ToggleAnimation.start ⟨0, -1, 0, 1⟩ (1/2)).ticks n).tickSignal = true) :=
  ticking_overshoot_bounded ⟨0, -1, 0, 1⟩ (1/2)
    (by norm_num) (by norm_num) (by norm_num) (by norm_num) (Or.inr rfl)

/-- C10: a ToggleAnimation whose speed is 0 reports settled on the very
first tickAndCheckIfDone call and that call leaves the whole state (in
particular the position) unchanged, because the position increment
direction * speed is zero and the decayed speed 0 is below the 0.001
settle threshold. -/
theorem tick_with_zero_speed_settles_and_keeps_state
    (a : ToggleAnimation) (hs : a.speed = 0) :
    a.tickAndCheckIfDone = (a, true) := by
  cases a with
  | mk position direction speed deceleration =>
    simp only [ToggleAnimation.tickAndCheckIfDone] at *
    subst hs
    norm_num

/-- Witness for C10 at the default-constructed state. -/
theorem tick_with_zero_speed_settles_and_keeps_state_witness :
    ToggleAnimation.tickAndCheckIfDone ⟨0, -1, 0, 1⟩ = (⟨0, -1, 0, 1⟩, true) :=
  tick_with_zero_speed_settles_and_keeps_state ⟨0, -1, 0, 1⟩ rfl

/-- C2: under the precondition that start is only invoked when canRestart
holds and the direction is one of the two legal values, canRestart is false
immediately after start; moreover canRestart is characterized exactly by
the 0.85 / 0.15 thresholds, it is true at position 0.9 with forward
direction, and false at position 0.5 for either direction. -/
theorem canRestart_false_after_start (a : ToggleAnimation) (s : ℚ)
    (hd : a.direction = 1 ∨ a.direction = -1)
    (hc : a.canRestart = true) :
    (a.start s).canRestart = false ∧
    (∀ b : ToggleAnimation, b.canRestart = true ↔
      ((b.direction > 0 ∧ b.position > 0.85) ∨
        (b.direction < 0 ∧ b.position < 0.15))) ∧
    ToggleAnimation.canRestart ⟨0.9, 1, 0, 1⟩ = true ∧
    ToggleAnimation.canRestart ⟨0.5, 1, 0, 1⟩ = false ∧
    ToggleAnimation.canRestart ⟨0.5, -1, 0, 1⟩ = false := by
  refine ⟨?_, ?_, by norm_num [ToggleAnimation.canRestart],
    by norm_num [ToggleAnimation.canRestart], by norm_num [ToggleAnimation.canRestart]⟩
  · rw [Bool.eq_false_iff]
    simp only [ne_eq, ToggleAnimation.canRestart, ToggleAnimation.start, Bool.or_eq_true,
      Bool.and_eq_true, decide_eq_true_eq] at hc ⊢
    rcases hd with hd | hd <;> rw [hd] at hc ⊢ <;>
      rintro (⟨h1, h2⟩ | ⟨h1, h2⟩) <;> rcases hc with ⟨g1, g2⟩ | ⟨g1, g2⟩ <;>
      norm_num at h1 h2 g1 g2 ⊢ <;> linarith
  · intro b
    simp only [ToggleAnimation.canRestart, Bool.or_eq_true, Bool.and_eq_true,
      decide_eq_true_eq]

/-- Witness for C2 at a concrete nearly-done state. -/
theorem canRestart_false_after_start_witness :
    (ToggleAnimation.start ⟨0.9, 1, 0, 1⟩ 0.4).canRestart = false ∧
    (∀ b : ToggleAnimation, b.canRestart = true ↔
      ((b.direction > 0 ∧ b.position > 0.85) ∨
        (b.direction < 0 ∧ b.position < 0.15))) ∧
    ToggleAnimation.canRestart ⟨0.9, 1, 0, 1⟩ = true ∧
    ToggleAnimation.canRestart ⟨0.5, 1, 0, 1⟩ = false ∧
    ToggleAnimation.canRestart ⟨0.5, -1, 0, 1⟩ = false :=
  canRestart_false_after_start ⟨0.9, 1, 0, 1⟩ 0.4 (Or.inl rfl)
    (by norm_num [ToggleAnimation.canRestart])

/-- A C++ int(...) cast applied to a float value: truncation toward zero. -/
def cppTruncInt (q : ℚ) : ℤ := if q < 0 then ⌈q⌉ else ⌊q⌋

theorem cppTruncInt_of_nonpos (q : ℚ) (h : q ≤ 0) : cppTruncInt q = ⌈q⌉ := by
  unfold cppTruncInt
  rcases lt_or_le q 0 with h1 | h1
  · rw [if_pos h1]
  · have hq : q = 0 := le_antisymm h h1
    subst hq
    simp

theorem cppTruncInt_of_nonneg (q : ℚ) (h : 0 ≤ q) : cppTruncInt q = ⌊q⌋ := by
  unfold cppTruncInt
  rw [if_neg (not_lt.mpr h)]

/-- The scroller height recomputed on every geometry pass (lines 238-240):
projectMapHeight - int((projectMapHeight - rollScrollerHeight) * scrollerModePosition),
with the two Globals::UI constants taken as parameters. -/
def scrollerHeightOf (projectMapHeight rollScrollerHeight : ℤ)
    (scrollerModePosition : ℚ) : ℤ :=
  projectMapHeight -
    cppTruncInt (((projectMapHeight - rollScrollerHeight : ℤ) : ℚ) * scrollerModePosition)

/-- Vertical offsets (y coordinates) given to the two roll viewports by
RollsSwitchingProxy::updateAnimatedRollsBounds (lines 236-249):
rollViewportHeight = height - scrollerHeight + 1 as a float, first offset
int(-position * rollViewportHeight), second offset
int(-position * rollViewportHeight + rollViewportHeight). -/
def updateAnimatedRollsBoundsOffsets (height scrollerHeight : ℤ)
    (rollsPosition : ℚ) : ℤ × ℤ :=
  let rollViewportHeight : ℚ := ((height - scrollerHeight + 1 : ℤ) : ℚ)
  (cppTruncInt (-rollsPosition * rollViewportHeight),
    cppTruncInt (-rollsPosition * rollViewportHeight + rollViewportHeight))

/-- The same two offsets as computed by
RollsSwitchingProxy::updateAnimatedRollsPositions (lines 251-262); the code
is the same formula reading this->getHeight() instead of the local bounds
height, which are equal. -/
def updateAnimatedRollsPositionsOffsets (height scrollerHeight : ℤ)
    (rollsPosition : ℚ) : ℤ × ℤ :=
  let rollViewportHeight : ℚ := ((height - scrollerHeight + 1 : ℤ) : ℚ)
  (cppTruncInt (-rollsPosition * rollViewportHeight),
    cppTruncInt (-rollsPosition * rollViewportHeight + rollViewportHeight))

/-- The viewport offsets exactly as the claim words them: the first offset
equals -position * viewportHeight and the second equals
-position * viewportHeight + viewportHeight where viewportHeight is the
available height minus the current scroller height. -/
def claimedRollsOffsets (height scrollerHeight : ℤ) (rollsPosition : ℚ) : ℚ × ℚ :=
  let viewportHeight : ℚ := ((height - scrollerHeight : ℤ) : ℚ)
  (-rollsPosition * viewportHeight, -rollsPosition * viewportHeight + viewportHeight)

/-- C4 counterexample: at animation position 1 with component height 100
and scroller height 10 the code puts the first viewport at offset -91
(rollViewportHeight is height - scrollerHeight + 1), while the claim
formula -position * (height - scrollerHeight) yields -90. -/
theorem rolls_offsets_claim_counterexample :
    ((updateAnimatedRollsBoundsOffsets 100 10 1).1 : ℚ) ≠
      (claimedRollsOffsets 100 10 1).1 := by
  norm_num [updateAnimatedRollsBoundsOffsets, claimedRollsOffsets, cppTruncInt]
  rw [show ((-91 : ℚ)) = ((-91 : ℤ) : ℚ) by norm_num, Int.ceil_intCast]
  norm_num

/-- C4 amended: the per-tick geometry recomputation gives the first roll
viewport the vertical offset int(-position * rollViewportHeight) and the
second int(-position * rollViewportHeight + rollViewportHeight) where
rollViewportHeight = height - scrollerHeight + 1; for positions in [0,1]
and nonnegative rollViewportHeight these int truncations are the ceiling
and the floor respectively, and the bounds-update and positions-update
code paths compute identical offsets. -/
theorem rolls_offsets_amended (height scrollerHeight : ℤ) (p : ℚ)
    (hp0 : 0 ≤ p) (hp1 : p ≤ 1) (hvh : 0 ≤ height - scrollerHeight + 1) :
    updateAnimatedRollsBoundsOffsets height scrollerHeight p =
      updateAnimatedRollsPositionsOffsets height scrollerHeight p ∧
    updateAnimatedRollsBoundsOffsets height scrollerHeight p =
      (⌈-p * ((height - scrollerHeight + 1 : ℤ) : ℚ)⌉,
        ⌊-p * ((height - scrollerHeight + 1 : ℤ) : ℚ) +
          ((height - scrollerHeight + 1 : ℤ) : ℚ)⌋) := by
  have hvq : (0 : ℚ) ≤ ((height - scrollerHeight + 1 : ℤ) : ℚ) := by exact_mod_cast hvh
  refine ⟨rfl, ?_⟩
  simp only [updateAnimatedRollsBoundsOffsets]
  have h1 : -p * ((height - scrollerHeight + 1 : ℤ) : ℚ) ≤ 0 := by
    have := mul_nonneg hp0 hvq
    nlinarith
  have h2 : 0 ≤ -p * ((height - scrollerHeight + 1 : ℤ) : ℚ) +
      ((height - scrollerHeight + 1 : ℤ) : ℚ) := by
    nlinarith [mul_nonneg hvq (show (0 : ℚ) ≤ 1 - p by linarith)]
  rw [cppTruncInt_of_nonpos _ h1, cppTruncInt_of_nonneg _ h2]

/-- Witness for C4 amended at height 100, scroller height 10, position 1/2. -/
theorem rolls_offsets_amended_witness :
    updateAnimatedRollsBoundsOffsets 100 10 (1/2) =
      updateAnimatedRollsPositionsOffsets 100 10 (1/2) ∧
    updateAnimatedRollsBoundsOffsets 100 10 (1/2) =
      (⌈-(1/2 : ℚ) * ((100 - 10 + 1 : ℤ) : ℚ)⌉,
        ⌊-(1/2 : ℚ) * ((100 - 10 + 1 : ℤ) : ℚ) + ((100 - 10 + 1 : ℤ) : ℚ)⌋) :=
  rolls_offsets_amended 100 10 (1/2) (by norm_num) (by norm_num) (by norm_num)

/-- A point with float (rational) coordinates. -/
structure PointF where
  x : ℚ
  y : ℚ
  deriving DecidableEq, Repr

/-- A JUCE Rectangle over ints: origin and extent. -/
structure RectI where
  x : ℤ
  y : ℤ
  w : ℤ
  h : ℤ
  deriving DecidableEq, Repr

/-- JUCE Point::toInt(): int casts of both coordinates. -/
def PointF.toIntPair (p : PointF) : ℤ × ℤ := (cppTruncInt p.x, cppTruncInt p.y)

/-- JUCE Rectangle(corner1, corner2): the rectangle spanned by two corner
points; the origin is the componentwise minimum and the extent the
absolute coordinate difference. -/
def rectFromCorners (c1 c2 : ℤ × ℤ) : RectI :=
  { x := min c1.1 c2.1
    y := min c1.2 c2.2
    w := |c1.1 - c2.1|
    h := |c1.2 - c2.2| }

/-- JUCE Rectangle::expanded(d): grow the rectangle by d on each side. -/
def RectI.expanded (r : RectI) (d : ℤ) : RectI :=
  { x := r.x - d, y := r.y - d, w := r.w + 2 * d, h := r.h + 2 * d }

/-- Anchor state of MergingEventsConnector: both anchors are stored as
parent-relative fractions (the source names the fields ...Abs but feeds
them to Rectangle::getRelativePoint against the parent bounds). -/
structure MergingEventsConnector where
  startPositionAbs : PointF
  endPositionAbs : PointF
  deriving DecidableEq, Repr

/-- MergingEventsConnector::MergingEventsConnector: both anchors start at
the given point. -/
def MergingEventsConnector.create (startPosition : PointF) : MergingEventsConnector :=
  { startPositionAbs := startPosition, endPositionAbs := startPosition }

/-- MergingEventsConnector::setEndPosition: replaces the floating anchor. -/
def MergingEventsConnector.setEndPosition (c : MergingEventsConnector)
    (position : PointF) : MergingEventsConnector :=
  { c with endPositionAbs := position }

/-- MergingEventsConnector::getStartPosition: the parent local bounds
(origin 0,0 with the parent current size, as floats) taken at the stored
relative point; JUCE getRelativePoint(rx, ry) yields
(x + width * rx, y + height * ry). -/
def MergingEventsConnector.getStartPosition (c : MergingEventsConnector)
    (parentWidth parentHeight : ℚ) : PointF :=
  ⟨parentWidth * c.startPositionAbs.x, parentHeight * c.startPositionAbs.y⟩

/-- MergingEventsConnector::getEndPosition, same conversion for the end
anchor. -/
def MergingEventsConnector.getEndPosition (c : MergingEventsConnector)
    (parentWidth parentHeight : ℚ) : PointF :=
  ⟨parentWidth * c.endPositionAbs.x, parentHeight * c.endPositionAbs.y⟩

/-- MergingEventsConnector::updateBounds: the Rectangle built from the two
anchor points converted to ints, expanded by 10. -/
def MergingEventsConnector.updateBounds (c : MergingEventsConnector)
    (parentWidth parentHeight : ℚ) : RectI :=
  (rectFromCorners (c.getStartPosition parentWidth parentHeight).toIntPair
    (c.getEndPosition parentWidth parentHeight).toIntPair).expanded 10

/-- The connector bounds as the spec words them: the pixel bounding box of
the two anchors (each converted as fraction times the parent current size,
to ints), with exactly 10 units added on each of the four sides. -/
def specConnectorBounds (c : MergingEventsConnector)
    (parentWidth parentHeight : ℚ) : RectI :=
  let p1 := (c.getStartPosition parentWidth parentHeight).toIntPair
  let p2 := (c.getEndPosition parentWidth parentHeight).toIntPair
  { x := min p1.1 p2.1 - 10
    y := min p1.2 p2.2 - 10
    w := (max p1.1 p2.1 - min p1.1 p2.1) + 2 * 10
    h := (max p1.2 p2.2 - min p1.2 p2.2) + 2 * 10 }

/-- C5: for any parent size at least 1 by 1, the connector bounds after
updateBounds equal the pixel bounding box of the two fractional anchors
scaled by the parent current size, expanded by exactly 10 units on each
side; and rescaling the parent scales both anchor pixel positions
proportionally. -/
theorem connector_bounds_are_expanded_bounding_box (c : MergingEventsConnector)
    (parentWidth parentHeight : ℚ) (hw : 1 ≤ parentWidth) (hh : 1 ≤ parentHeight) :
    c.updateBounds parentWidth parentHeight = specConnectorBounds c parentWidth parentHeight ∧
    (∀ k : ℚ,
      c.getStartPosition (k * parentWidth) (k * parentHeight) =
        ⟨k * (c.getStartPosition parentWidth parentHeight).x,
          k * (c.getStartPosition parentWidth parentHeight).y⟩ ∧
      c.getEndPosition (k * parentWidth) (k * parentHeight) =
        ⟨k * (c.getEndPosition parentWidth parentHeight).x,
          k * (c.getEndPosition parentWidth parentHeight).y⟩) := by
  constructor
  · unfold MergingEventsConnector.updateBounds specConnectorBounds rectFromCorners
      RectI.expanded
    have habs : ∀ a b : ℤ, |a - b| = max a b - min a b := by
      intro a b
      rw [max_sub_min_eq_abs]
      exact abs_sub_comm a b
    simp only [habs]
  · intro k
    unfold MergingEventsConnector.getStartPosition MergingEventsConnector.getEndPosition
    constructor <;> simp [PointF.mk.injEq, mul_assoc]

/-- Witness for C5 at a concrete connector and parent size 200 by 100. -/
theorem connector_bounds_are_expanded_bounding_box_witness :
    (MergingEventsConnector.updateBounds ⟨⟨1/4, 1/3⟩, ⟨3/4, 2/3⟩⟩ 200 100 =
      specConnectorBounds ⟨⟨1/4, 1/3⟩, ⟨3/4, 2/3⟩⟩ 200 100) ∧
    (∀ k : ℚ,
      MergingEventsConnector.getStartPosition ⟨⟨1/4, 1/3⟩, ⟨3/4, 2/3⟩⟩ (k * 200) (k * 100) =
        ⟨k * (MergingEventsConnector.getStartPosition ⟨⟨1/4, 1/3⟩, ⟨3/4, 2/3⟩⟩ 200 100).x,
          k * (MergingEventsConnector.getStartPosition ⟨⟨1/4, 1/3⟩, ⟨3/4, 2/3⟩⟩ 200 100).y⟩ ∧
      MergingEventsConnector.getEndPosition ⟨⟨1/4, 1/3⟩, ⟨3/4, 2/3⟩⟩ (k * 200) (k * 100) =
        ⟨k * (MergingEventsConnector.getEndPosition ⟨⟨1/4, 1/3⟩, ⟨3/4, 2/3⟩⟩ 200 100).x,
          k * (MergingEventsConnector.getEndPosition ⟨⟨1/4, 1/3⟩, ⟨3/4, 2/3⟩⟩ 200 100).y⟩) :=
  connector_bounds_are_expanded_bounding_box ⟨⟨1/4, 1/3⟩, ⟨3/4, 2/3⟩⟩ 200 100
    (by norm_num) (by norm_num)

/-- What the dynamic_cast to ClipComponent in
MergingClipsConnector::setTargetComponent can see: a clip component that
carries its clip track colour, or some unrelated component. Colours are
abstracted as integers. -/
inductive CandidateComponent where
  | clipComponent (trackColour : ℤ)
  | otherComponent
  deriving DecidableEq, Repr

/-- dynamic_cast of a nullable component pointer to ClipComponent,
returning the track colour of the clip when the cast succeeds. -/
def dynamicCastClipComponent : Option CandidateComponent → Option ℤ
  | some (CandidateComponent.clipComponent trackColour) => some trackColour
  | _ => none

/-- The state of MergingClipsConnector touched by setTargetComponent: the
gradient colours, the stored target, and a repaint counter standing for
the repaint() side effect. -/
structure MergingClipsConnector where
  startColour : ℤ
  endColour : ℤ
  targetComponent : Option CandidateComponent := none
  repaintCount : ℕ := 0
  deriving DecidableEq, Repr

/-- MergingEventsConnector::setTargetComponent (base class, lines 35-39):
store the target and trigger a repaint. -/
def MergingClipsConnector.setTargetComponentBase (c : MergingClipsConnector)
    (component : Option CandidateComponent) : MergingClipsConnector :=
  { c with targetComponent := component, repaintCount := c.repaintCount + 1 }

/-- MergingClipsConnector::setTargetComponent (lines 101-113): when the
candidate casts to a ClipComponent adopt its track colour as the end
colour, otherwise revert the end colour to the start colour; then defer to
the base implementation. -/
def MergingClipsConnector.setTargetComponent (c : MergingClipsConnector)
    (component : Option CandidateComponent) : MergingClipsConnector :=
  match dynamicCastClipComponent component with
  | some trackColour =>
      MergingClipsConnector.setTargetComponentBase { c with endColour := trackColour } component
  | none =>
      MergingClipsConnector.setTargetComponentBase { c with endColour := c.startColour } component

/-- C8: setTargetComponent adopts the track colour of a recognized clip
candidate as the end colour and otherwise reverts the end colour to the
start colour; in both cases it stores the target and triggers exactly one
redraw. -/
theorem setTargetComponent_colours_and_repaints (c : MergingClipsConnector)
    (component : Option CandidateComponent) :
    (∀ trackColour : ℤ, dynamicCastClipComponent component = some trackColour →
      (c.setTargetComponent component).endColour = trackColour) ∧
    (dynamicCastClipComponent component = none →
      (c.setTargetComponent component).endColour = c.startColour) ∧
    (c.setTargetComponent component).repaintCount = c.repaintCount + 1 ∧
    (c.setTargetComponent component).targetComponent = component := by
  cases hcast : dynamicCastClipComponent component <;>
    simp [MergingClipsConnector.setTargetComponent, hcast,
      MergingClipsConnector.setTargetComponentBase]

/-- Witness for C8: a clip candidate with track colour 5 is adopted, and a
non-clip candidate reverts to the start colour; shown on a connector with
start colour 2. -/
theorem setTargetComponent_colours_and_repaints_witness :
    (MergingClipsConnector.setTargetComponent ⟨2, 3, none, 0⟩
      (some (CandidateComponent.clipComponent 5))).endColour = 5 ∧
    (MergingClipsConnector.setTargetComponent ⟨2, 3, none, 0⟩
      (some CandidateComponent.otherComponent)).endColour = 2 ∧
    (MergingClipsConnector.setTargetComponent ⟨2, 3, none, 0⟩
      (some (CandidateComponent.clipComponent 5))).repaintCount = 0 + 1 ∧
    (MergingClipsConnector.setTargetComponent ⟨2, 3, none, 0⟩
      (some (CandidateComponent.clipComponent 5))).targetComponent =
        some (CandidateComponent.clipComponent 5) :=
  ⟨(setTargetComponent_colours_and_repaints ⟨2, 3, none, 0⟩
      (some (CandidateComponent.clipComponent 5))).1 5 rfl,
    (setTargetComponent_colours_and_repaints ⟨2, 3, none, 0⟩
      (some CandidateComponent.otherComponent)).2.1 rfl,
    (setTargetComponent_colours_and_repaints ⟨2, 3, none, 0⟩
      (some (CandidateComponent.clipComponent 5))).2.2.1,
    (setTargetComponent_colours_and_repaints ⟨2, 3, none, 0⟩
      (some (CandidateComponent.clipComponent 5))).2.2.2⟩

/-- ProjectMapsScroller::ScrollerMode. -/
inductive ScrollerMode where
  | map
  | scroller
  deriving DecidableEq, Repr

/-- RollsSwitchingProxy animation start speeds (lines 379-381). -/
def rollsAnimationStartSpeed : ℚ := 0.4

def mapsAnimationStartSpeed : ℚ := 0.35

def scrollerModeAnimationStartSpeed : ℚ := 0.5

/-- Observable state of RollsSwitchingProxy: the three ToggleAnimations,
the three MultiTimer slots (true while that timer is running), the enabled
and visible flags of the coordinated child components, the scroller mode
stored in the bottom maps scroller, and the timer interval that encodes
whether animations are enabled. Child component bounds are pure geometry
recomputed from this state and are modelled separately above. -/
structure RollsSwitchingProxy where
  rollsAnimation : ToggleAnimation
  mapsAnimation : ToggleAnimation
  scrollerModeAnimation : ToggleAnimation
  rollsTimerRunning : Bool
  mapsTimerRunning : Bool
  scrollerTimerRunning : Bool
  pianoRollEnabled : Bool
  patternRollEnabled : Bool
  pianoRollVisible : Bool
  patternRollVisible : Bool
  pianoViewportVisible : Bool
  patternViewportVisible : Bool
  mapsScrollerEnabled : Bool
  editorsScrollerEnabled : Bool
  mapsScrollerVisible : Bool
  editorsScrollerVisible : Bool
  scrollerMode : ScrollerMode
  animationsTimerInterval : ℤ
  deriving DecidableEq, Repr

/-- RollsSwitchingProxy::isPianoRollMode (lines 117-120). -/
def RollsSwitchingProxy.isPianoRollMode (st : RollsSwitchingProxy) : Bool :=
  st.rollsAnimation.isInDefaultState

/-- RollsSwitchingProxy::isPatternRollMode (lines 122-125). -/
def RollsSwitchingProxy.isPatternRollMode (st : RollsSwitchingProxy) : Bool :=
  !st.isPianoRollMode

/-- RollsSwitchingProxy::isProjectMapVisible (lines 127-130). -/
def RollsSwitchingProxy.isProjectMapVisible (st : RollsSwitchingProxy) : Bool :=
  st.mapsAnimation.isInDefaultState

/-- RollsSwitchingProxy::isEditorPanelVisible (lines 132-135). -/
def RollsSwitchingProxy.isEditorPanelVisible (st : RollsSwitchingProxy) : Bool :=
  !st.isProjectMapVisible

/-- RollsSwitchingProxy::isFullProjectMapMode (lines 137-141): reads the
scroller mode stored in the bottom maps scroller. -/
def RollsSwitchingProxy.isFullProjectMapMode (st : RollsSwitchingProxy) : Bool :=
  decide (st.scrollerMode = ScrollerMode.map)

/-- RollsSwitchingProxy::areAnimationsEnabled (lines 149-152). -/
def RollsSwitchingProxy.areAnimationsEnabled (st : RollsSwitchingProxy) : Bool :=
  decide (st.animationsTimerInterval > 0)

/-- RollsSwitchingProxy::setAnimationsEnabled (lines 143-147): the timer
interval becomes 1000 / 60 when enabled and 0 when disabled. -/
def RollsSwitchingProxy.setAnimationsEnabled (st : RollsSwitchingProxy)
    (animationsEnabled : Bool) : RollsSwitchingProxy :=
  { st with animationsTimerInterval := if animationsEnabled then 1000 / 60 else 0 }

/-- The RollsSwitchingProxy constructor (lines 64-101): the piano viewport
is added visible, the pattern viewport and the editors scroller are added
invisible, the pattern roll is disabled; the scroller mode follows the
persisted large-mini-map flag and the scroller-mode animation is reset to
its end when the mini map starts small. JUCE components are visible and
enabled by default unless changed here. -/
def RollsSwitchingProxy.initial (showFullMiniMap : Bool) : RollsSwitchingProxy :=
  { rollsAnimation := {}
    mapsAnimation := {}
    scrollerModeAnimation :=
      if showFullMiniMap then {} else ToggleAnimation.resetToEnd {}
    rollsTimerRunning := false
    mapsTimerRunning := false
    scrollerTimerRunning := false
    pianoRollEnabled := true
    patternRollEnabled := false
    pianoRollVisible := true
    patternRollVisible := true
    pianoViewportVisible := true
    patternViewportVisible := false
    mapsScrollerEnabled := true
    editorsScrollerEnabled := true
    mapsScrollerVisible := true
    editorsScrollerVisible := false
    scrollerMode := if showFullMiniMap then ScrollerMode.map else ScrollerMode.scroller
    animationsTimerInterval := 1000 / 60 }

/-- The rolls branch of RollsSwitchingProxy::timerCallback (lines 308-329):
tick the rolls animation; when it reports settled, stop the rolls timer,
hide the outgoing roll and viewport picked by the current mode, and finish
the animation. The per-tick geometry updates touch only bounds. -/
def RollsSwitchingProxy.timerCallbackRolls (st : RollsSwitchingProxy) : RollsSwitchingProxy :=
  if st.rollsAnimation.tickSignal then
    if !st.rollsAnimation.tick.isInDefaultState then
      { st with
        rollsAnimation := st.rollsAnimation.tick.finish
        rollsTimerRunning := false
        pianoRollVisible := false
        pianoViewportVisible := false }
    else
      { st with
        rollsAnimation := st.rollsAnimation.tick.finish
        rollsTimerRunning := false
        patternRollVisible := false
        patternViewportVisible := false }
  else
    { st with rollsAnimation := st.rollsAnimation.tick }

/-- The maps branch of RollsSwitchingProxy::timerCallback (lines 331-350):
tick the maps animation; when settled, stop the maps timer, hide the
outgoing bottom panel picked by isEditorPanelVisible, and finish. -/
def RollsSwitchingProxy.timerCallbackMaps (st : RollsSwitchingProxy) : RollsSwitchingProxy :=
  if st.mapsAnimation.tickSignal then
    if !st.mapsAnimation.tick.isInDefaultState then
      { st with
        mapsAnimation := st.mapsAnimation.tick.finish
        mapsTimerRunning := false
        mapsScrollerVisible := false }
    else
      { st with
        mapsAnimation := st.mapsAnimation.tick.finish
        mapsTimerRunning := false
        editorsScrollerVisible := false }
  else
    { st with mapsAnimation := st.mapsAnimation.tick }

/-- The scroller-mode branch of RollsSwitchingProxy::timerCallback (lines
352-361): tick; when settled, stop the scroller-mode timer and finish. -/
def RollsSwitchingProxy.timerCallbackScrollerMode (st : RollsSwitchingProxy) :
    RollsSwitchingProxy :=
  if st.scrollerModeAnimation.tickSignal then
    { st with
      scrollerModeAnimation := st.scrollerModeAnimation.tick.finish
      scrollerTimerRunning := false }
  else
    { st with scrollerModeAnimation := st.scrollerModeAnimation.tick }

/-- RollsSwitchingProxy::startRollSwitchAnimation (lines 154-180): start
the rolls animation, read the new mode, enable exactly the incoming roll,
make both rolls and both viewports visible; then either start the rolls
timer (animations enabled) or finish the animation and invoke the rolls
timer callback synchronously (animations disabled). -/
def RollsSwitchingProxy.startRollSwitchAnimation (st : RollsSwitchingProxy) :
    RollsSwitchingProxy :=
  let started := st.rollsAnimation.start rollsAnimationStartSpeed
  let patternRollMode := !started.isInDefaultState
  let st1 :=
    { st with
      rollsAnimation := started
      patternRollEnabled := patternRollMode
      pianoRollEnabled := !patternRollMode
      patternRollVisible := true
      pianoRollVisible := true
      patternViewportVisible := true
      pianoViewportVisible := true }
  -- the source reads this->areAnimationsEnabled() here; the assignments
  -- above leave animationsTimerInterval untouched, so the check reads the
  -- same value on st
  if st.areAnimationsEnabled then
    { st1 with rollsTimerRunning := true }
  else
    RollsSwitchingProxy.timerCallbackRolls
      { st1 with rollsAnimation := st1.rollsAnimation.finish }

/-- RollsSwitchingProxy::startMapSwitchAnimation (lines 182-195): start the
maps animation, read the new panel mode, enable exactly the incoming
bottom panel, make both panels visible, and always start the maps timer
(startTimer is called unconditionally; JUCE clamps the period to at least
1 ms, so the timer runs even when the stored interval is 0). -/
def RollsSwitchingProxy.startMapSwitchAnimation (st : RollsSwitchingProxy) :
    RollsSwitchingProxy :=
  let started := st.mapsAnimation.start mapsAnimationStartSpeed
  let editorPanelMode := !started.isInDefaultState
  { st with
    mapsAnimation := started
    editorsScrollerEnabled := editorPanelMode
    mapsScrollerEnabled := !editorPanelMode
    editorsScrollerVisible := true
    mapsScrollerVisible := true
    mapsTimerRunning := true }

/-- RollsSwitchingProxy::startScrollerModeSwitchAnimation (lines 197-210):
start the scroller-mode animation, toggle the stored scroller mode, and
always start the scroller-mode timer. -/
def RollsSwitchingProxy.startScrollerModeSwitchAnimation (st : RollsSwitchingProxy) :
    RollsSwitchingProxy :=
  { st with
    scrollerModeAnimation :=
      st.scrollerModeAnimation.start scrollerModeAnimationStartSpeed
    scrollerMode :=
      if st.isFullProjectMapMode then ScrollerMode.scroller else ScrollerMode.map
    scrollerTimerRunning := true }

/-- Reachable states of the proxy: the constructor state followed by any
sequence of the public operations; a timer callback fires spontaneously
only while its timer is running. -/
inductive Reachable : RollsSwitchingProxy → Prop where
  | initial (showFullMiniMap : Bool) :
      Reachable (RollsSwitchingProxy.initial showFullMiniMap)
  | setAnimationsEnabled {st : RollsSwitchingProxy} (b : Bool) :
      Reachable st → Reachable (st.setAnimationsEnabled b)
  | startRollSwitch {st : RollsSwitchingProxy} :
      Reachable st → Reachable st.startRollSwitchAnimation
  | startMapSwitch {st : RollsSwitchingProxy} :
      Reachable st → Reachable st.startMapSwitchAnimation
  | startScrollerModeSwitch {st : RollsSwitchingProxy} :
      Reachable st → Reachable st.startScrollerModeSwitchAnimation
  | rollsTimerFires {st : RollsSwitchingProxy} :
      Reachable st → st.rollsTimerRunning = true → Reachable st.timerCallbackRolls
  | mapsTimerFires {st : RollsSwitchingProxy} :
      Reachable st → st.mapsTimerRunning = true → Reachable st.timerCallbackMaps
  | scrollerTimerFires {st : RollsSwitchingProxy} :
      Reachable st → st.scrollerTimerRunning = true →
        Reachable st.timerCallbackScrollerMode

/-- Well-formedness of an animation state as maintained by the proxy:
legal direction and position within [0,1]. -/
def animWF (a : ToggleAnimation) : Prop :=
  (a.direction = 1 ∨ a.direction = -1) ∧ 0 ≤ a.position ∧ a.position ≤ 1

/-- The inductive invariant of the proxy: all three animations are well
formed, exactly one of the two rolls is enabled, and while the rolls timer
runs both rolls and both viewports are visible. -/
def ProxyInv (st : RollsSwitchingProxy) : Prop :=
  animWF st.rollsAnimation ∧ animWF st.mapsAnimation ∧
    animWF st.scrollerModeAnimation ∧
    st.pianoRollEnabled = !st.patternRollEnabled ∧
    (st.rollsTimerRunning = true →
      st.pianoRollVisible = true ∧ st.patternRollVisible = true ∧
        st.pianoViewportVisible = true ∧ st.patternViewportVisible = true)

theorem jlimit_zero_one_mem (v : ℚ) : 0 ≤ jlimit 0 1 v ∧ jlimit 0 1 v ≤ 1 := by
  unfold jlimit
  split_ifs with h1 h2 <;> constructor <;> linarith

theorem animWF_start (a : ToggleAnimation) (s : ℚ) (h : animWF a) :
    animWF (a.start s) := by
  obtain ⟨hd, hp0, hp1⟩ := h
  refine ⟨?_, hp0, hp1⟩
  rcases hd with hd | hd
  · right
    show a.direction * (-1) = -1
    rw [hd]
    norm_num
  · left
    show a.direction * (-1) = 1
    rw [hd]
    norm_num

theorem animWF_finish (a : ToggleAnimation)
    (hd : a.direction = 1 ∨ a.direction = -1) : animWF a.finish :=
  ⟨hd, (jlimit_zero_one_mem _).1, (jlimit_zero_one_mem _).2⟩

theorem animWF_tick_of_signal_false (a : ToggleAnimation)
    (hd : a.direction = 1 ∨ a.direction = -1) (h : a.tickSignal = false) :
    animWF a.tick := by
  have hb := tickSignal_false_bounds a h
  norm_num at hb
  exact ⟨hd, by linarith [hb.1], by linarith [hb.2]⟩

theorem proxyInv_timerCallbackRolls (st : RollsSwitchingProxy) (h : ProxyInv st) :
    ProxyInv st.timerCallbackRolls := by
  obtain ⟨h1, h2, h3, h4, h5⟩ := h
  unfold RollsSwitchingProxy.timerCallbackRolls
  by_cases hs : st.rollsAnimation.tickSignal = true
  · rw [if_pos hs]
    have hwf : animWF st.rollsAnimation.tick.finish :=
      animWF_finish _ (by rw [tick_direction]; exact h1.1)
    by_cases hm : (!st.rollsAnimation.tick.isInDefaultState) = true
    · rw [if_pos hm]
      exact ⟨hwf, h2, h3, h4, fun hf => absurd hf Bool.false_ne_true⟩
    · rw [if_neg hm]
      exact ⟨hwf, h2, h3, h4, fun hf => absurd hf Bool.false_ne_true⟩
  · have hs' : st.rollsAnimation.tickSignal = false := Bool.eq_false_iff.mpr hs
    rw [if_neg hs]
    exact ⟨animWF_tick_of_signal_false _ h1.1 hs', h2, h3, h4, fun ht => h5 ht⟩

theorem proxyInv_timerCallbackMaps (st : RollsSwitchingProxy) (h : ProxyInv st) :
    ProxyInv st.timerCallbackMaps := by
  obtain ⟨h1, h2, h3, h4, h5⟩ := h
  unfold RollsSwitchingProxy.timerCallbackMaps
  by_cases hs : st.mapsAnimation.tickSignal = true
  · rw [if_pos hs]
    have hwf : animWF st.mapsAnimation.tick.finish :=
      animWF_finish _ (by rw [tick_direction]; exact h2.1)
    by_cases hm : (!st.mapsAnimation.tick.isInDefaultState) = true
    · rw [if_pos hm]
      exact ⟨h1, hwf, h3, h4, fun ht => h5 ht⟩
    · rw [if_neg hm]
      exact ⟨h1, hwf, h3, h4, fun ht => h5 ht⟩
  · have hs' : st.mapsAnimation.tickSignal = false := Bool.eq_false_iff.mpr hs
    rw [if_neg hs]
    exact ⟨h1, animWF_tick_of_signal_false _ h2.1 hs', h3, h4, fun ht => h5 ht⟩

theorem proxyInv_timerCallbackScrollerMode (st : RollsSwitchingProxy)
    (h : ProxyInv st) : ProxyInv st.timerCallbackScrollerMode := by
  obtain ⟨h1, h2, h3, h4, h5⟩ := h
  unfold RollsSwitchingProxy.timerCallbackScrollerMode
  by_cases hs : st.scrollerModeAnimation.tickSignal = true
  · rw [if_pos hs]
    exact ⟨h1, h2, animWF_finish _ (by rw [tick_direction]; exact h3.1), h4,
      fun ht => h5 ht⟩
  · have hs' : st.scrollerModeAnimation.tickSignal = false := Bool.eq_false_iff.mpr hs
    rw [if_neg hs]
    exact ⟨h1, h2, animWF_tick_of_signal_false _ h3.1 hs', h4, fun ht => h5 ht⟩

theorem proxyInv_startRollSwitch (st : RollsSwitchingProxy) (h : ProxyInv st) :
    ProxyInv st.startRollSwitchAnimation := by
  obtain ⟨h1, h2, h3, h4, h5⟩ := h
  have hwf1 : animWF (st.rollsAnimation.start rollsAnimationStartSpeed) :=
    animWF_start _ _ h1
  simp only [RollsSwitchingProxy.startRollSwitchAnimation]
  by_cases he : RollsSwitchingProxy.areAnimationsEnabled st = true
  · rw [if_pos he]
    exact ⟨hwf1, h2, h3, rfl, fun _ => ⟨rfl, rfl, rfl, rfl⟩⟩
  · rw [if_neg he]
    apply proxyInv_timerCallbackRolls
    exact ⟨animWF_finish _ hwf1.1, h2, h3, rfl, fun _ => ⟨rfl, rfl, rfl, rfl⟩⟩

theorem proxyInv_of_reachable {st : RollsSwitchingProxy} (hr : Reachable st) :
    ProxyInv st := by
  induction hr with
  | initial b =>
    cases b <;>
      norm_num [ProxyInv, animWF, RollsSwitchingProxy.initial,
        ToggleAnimation.resetToEnd]
  | setAnimationsEnabled b h ih =>
    exact ih
  | startRollSwitch h ih =>
    exact proxyInv_startRollSwitch _ ih
  | startMapSwitch h ih =>
    obtain ⟨h1, h2, h3, h4, h5⟩ := ih
    exact ⟨h1, animWF_start _ _ h2, h3, h4, fun ht => h5 ht⟩
  | startScrollerModeSwitch h ih =>
    obtain ⟨h1, h2, h3, h4, h5⟩ := ih
    exact ⟨h1, h2, animWF_start _ _ h3, h4, fun ht => h5 ht⟩
  | rollsTimerFires h htimer ih =>
    exact proxyInv_timerCallbackRolls _ ih
  | mapsTimerFires h htimer ih =>
    exact proxyInv_timerCallbackMaps _ ih
  | scrollerTimerFires h htimer ih =>
    exact proxyInv_timerCallbackScrollerMode _ ih

theorem startFinish_signal_and_refinish (a : ToggleAnimation) (s : ℚ)
    (hs : 0 ≤ s) (hd : a.direction = 1 ∨ a.direction = -1)
    (hp0 : 0 ≤ a.position) (hp1 : a.position ≤ 1) :
    ((a.start s).finish).tickSignal = true ∧
    ((((a.start s).finish).tick).finish.position = 0 ∨
      (((a.start s).finish).tick).finish.position = 1) := by
  have hpf : ((a.start s).finish).position =
      jlimit 0 1 (a.position + a.direction * (-1)) := rfl
  have htp : (((a.start s).finish).tick).position =
      ((a.start s).finish).position + a.direction * (-1) * s := rfl
  have hfp : ((((a.start s).finish).tick).finish).position =
      jlimit 0 1 ((((a.start s).finish).tick).position + a.direction * (-1)) := rfl
  rcases hd with hda | hda
  · have hzero : ((a.start s).finish).position = 0 := by
      rw [hpf, hda]
      apply jlimit_eq_zero
      linarith
    constructor
    · apply tickSignal_of_position_out
      left
      rw [htp, hzero, hda]
      norm_num
      linarith
    · left
      rw [hfp, htp, hzero, hda]
      apply jlimit_eq_zero
      nlinarith
  · have hone : ((a.start s).finish).position = 1 := by
      rw [hpf, hda]
      apply jlimit_eq_one
      linarith
    constructor
    · apply tickSignal_of_position_out
      right
      rw [htp, hone, hda]
      norm_num
      linarith
    · right
      rw [hfp, htp, hone, hda]
      apply jlimit_eq_one
      nlinarith

theorem startRollSwitch_disabled_settles (st : RollsSwitchingProxy)
    (hwf : animWF st.rollsAnimation)
    (hdis : st.areAnimationsEnabled = false) :
    st.startRollSwitchAnimation.rollsTimerRunning = false ∧
    (st.startRollSwitchAnimation.rollsAnimation.position = 0 ∨
      st.startRollSwitchAnimation.rollsAnimation.position = 1) ∧
    st.startRollSwitchAnimation.rollsAnimation.direction =
      st.rollsAnimation.direction * (-1) := by
  obtain ⟨hd, hp0, hp1⟩ := hwf
  have hkey := startFinish_signal_and_refinish st.rollsAnimation
    rollsAnimationStartSpeed (by norm_num [rollsAnimationStartSpeed]) hd hp0 hp1
  simp only [RollsSwitchingProxy.startRollSwitchAnimation]
  rw [hdis, if_neg Bool.false_ne_true]
  simp only [RollsSwitchingProxy.timerCallbackRolls]
  rw [hkey.1, if_pos rfl]
  by_cases hm : (!((st.rollsAnimation.start rollsAnimationStartSpeed).finish).tick.isInDefaultState) = true
  · rw [if_pos hm]
    exact ⟨rfl, hkey.2, rfl⟩
  · rw [if_neg hm]
    exact ⟨rfl, hkey.2, rfl⟩

/-- C6: in every reachable settled state (rolls timer not running) exactly
one of the two roll views is enabled for input, and while the roll-switch
animation runs (rolls timer running) both roll views are visible. -/
theorem settled_one_roll_enabled_animating_both_visible
    (st : RollsSwitchingProxy) (h : Reachable st) :
    (st.rollsTimerRunning = false →
      st.pianoRollEnabled = !st.patternRollEnabled) ∧
    (st.rollsTimerRunning = true →
      st.pianoRollVisible = true ∧ st.patternRollVisible = true) := by
  have hinv := proxyInv_of_reachable h
  exact ⟨fun _ => hinv.2.2.2.1,
    fun ht => ⟨(hinv.2.2.2.2 ht).1, (hinv.2.2.2.2 ht).2.1⟩⟩

/-- Witness for C6 at the constructor state. -/
theorem settled_one_roll_enabled_animating_both_visible_witness :
    ((RollsSwitchingProxy.initial true).rollsTimerRunning = false →
      (RollsSwitchingProxy.initial true).pianoRollEnabled =
        !(RollsSwitchingProxy.initial true).patternRollEnabled) ∧
    ((RollsSwitchingProxy.initial true).rollsTimerRunning = true →
      (RollsSwitchingProxy.initial true).pianoRollVisible = true ∧
        (RollsSwitchingProxy.initial true).patternRollVisible = true) :=
  settled_one_roll_enabled_animating_both_visible _ (Reachable.initial true)

/-- C9: with animations globally disabled, startRollSwitchAnimation leaves
the controller immediately in the opposite roll mode with the rolls timer
not running, from every reachable settled state. -/
theorem disabled_roll_switch_flips_mode_without_timer (st : RollsSwitchingProxy)
    (h : Reachable st) (hsettled : st.rollsTimerRunning = false)
    (hdis : st.areAnimationsEnabled = false) :
    st.startRollSwitchAnimation.isPianoRollMode = !st.isPianoRollMode ∧
    st.startRollSwitchAnimation.isPatternRollMode = !st.isPatternRollMode ∧
    st.startRollSwitchAnimation.rollsTimerRunning = false := by
  have hinv := proxyInv_of_reachable h
  have hkey := startRollSwitch_disabled_settles st hinv.1 hdis
  have hpiano : st.startRollSwitchAnimation.isPianoRollMode = !st.isPianoRollMode := by
    simp only [RollsSwitchingProxy.isPianoRollMode, ToggleAnimation.isInDefaultState]
    rw [hkey.2.2]
    rcases hinv.1.1 with hda | hda <;> rw [hda]
    · rw [decide_eq_true (show (1 : ℚ) * (-1) < 0 by norm_num),
        decide_eq_false (show ¬((1 : ℚ) < 0) by norm_num)]
      rfl
    · rw [decide_eq_false (show ¬((-1 : ℚ) * (-1) < 0) by norm_num),
        decide_eq_true (show (-1 : ℚ) < 0 by norm_num)]
      rfl
  refine ⟨hpiano, ?_, hkey.1⟩
  simp only [RollsSwitchingProxy.isPatternRollMode, hpiano]

/-- Witness for C9 from the constructor state with animations turned off. -/
theorem disabled_roll_switch_flips_mode_without_timer_witness :
    (((RollsSwitchingProxy.initial true).setAnimationsEnabled false
        ).startRollSwitchAnimation).isPianoRollMode =
      !((RollsSwitchingProxy.initial true).setAnimationsEnabled false
        ).isPianoRollMode ∧
    (((RollsSwitchingProxy.initial true).setAnimationsEnabled false
        ).startRollSwitchAnimation).isPatternRollMode =
      !((RollsSwitchingProxy.initial true).setAnimationsEnabled false
        ).isPatternRollMode ∧
    (((RollsSwitchingProxy.initial true).setAnimationsEnabled false
        ).startRollSwitchAnimation).rollsTimerRunning = false :=
  disabled_roll_switch_flips_mode_without_timer _
    (Reachable.setAnimationsEnabled false (Reachable.initial true)) rfl rfl

/-- C3 counterexample: with animations globally disabled (the constructor
state after setAnimationsEnabled(false)), startMapSwitchAnimation still
starts the maps timer, so the map switch does not skip per-frame ticking
and is not settled synchronously. -/
theorem disabled_map_switch_still_ticks_counterexample :
    ((RollsSwitchingProxy.initial true).setAnimationsEnabled false
      ).startMapSwitchAnimation.mapsTimerRunning = true ∧
    ((RollsSwitchingProxy.initial true).setAnimationsEnabled false
      ).startScrollerModeSwitchAnimation.scrollerTimerRunning = true ∧
    ((RollsSwitchingProxy.initial true).setAnimationsEnabled false
      ).areAnimationsEnabled = false :=
  ⟨rfl, rfl, rfl⟩

/-- C3 amended: with animations globally disabled, only
startRollSwitchAnimation skips per-frame ticking and synchronously reaches
the settled finish() state (rolls animation at position 0 or 1, rolls
timer not running); startMapSwitchAnimation and
startScrollerModeSwitchAnimation start their timers regardless of the
flag, from every reachable controller state. -/
theorem disabled_start_ops_timer_behavior (st : RollsSwitchingProxy)
    (h : Reachable st) (hdis : st.areAnimationsEnabled = false) :
    st.startRollSwitchAnimation.rollsTimerRunning = false ∧
    (st.startRollSwitchAnimation.rollsAnimation.position = 0 ∨
      st.startRollSwitchAnimation.rollsAnimation.position = 1) ∧
    st.startMapSwitchAnimation.mapsTimerRunning = true ∧
    st.startScrollerModeSwitchAnimation.scrollerTimerRunning = true := by
  have hinv := proxyInv_of_reachable h
  have hkey := startRollSwitch_disabled_settles st hinv.1 hdis
  exact ⟨hkey.1, hkey.2.1, rfl, rfl⟩

/-- Witness for C3 amended from the small-mini-map constructor state with
animations turned off. -/
theorem disabled_start_ops_timer_behavior_witness :
    ((RollsSwitchingProxy.initial false).setAnimationsEnabled false
      ).startRollSwitchAnimation.rollsTimerRunning = false ∧
    (((RollsSwitchingProxy.initial false).setAnimationsEnabled false
      ).startRollSwitchAnimation.rollsAnimation.position = 0 ∨
      ((RollsSwitchingProxy.initial false).setAnimationsEnabled false
      ).startRollSwitchAnimation.rollsAnimation.position = 1) ∧
    ((RollsSwitchingProxy.initial false).setAnimationsEnabled false
      ).startMapSwitchAnimation.mapsTimerRunning = true ∧
    ((RollsSwitchingProxy.initial false).setAnimationsEnabled false
      ).startScrollerModeSwitchAnimation.scrollerTimerRunning = true :=
  disabled_start_ops_timer_behavior _
    (Reachable.setAnimationsEnabled false (Reachable.initial false)) rfl

end Helio
